import Mathlib

/-!
Verification model of the heaty heat-load calculator (EN 12831-1).

Shallow embedding of `heaty/model/*.py` and the entity factories of
`heaty/gui/controller.py`.  All physical magnitudes are modelled as exact
rationals, expressed in the canonical base unit of the corresponding field
(the unit string passed to `UnPacker.unpack` in the source); unit
conversion at the field's own base unit is the identity on magnitudes, so
arithmetic on stored magnitudes is faithful.  `Quantity.__call__` formats
every magnitude it returns to 6 significant digits
(`float(f"{m:.6g}")`, scalar.py line 51); this rounding is modelled
explicitly by `round6g` where the claim under scrutiny depends on it
(`UnPacker.unpack`), while the entity structures quantify over arbitrary
rational attribute values — a superset of the 6-digit values the program
actually stores.  Python's `x ** y` on
non-integral exponents (used for `V_ATD_50` and the ground `U_equiv`
formula) is real-valued and not rational-representable; it is modelled by
an abstract parameter `rpow : ℚ → ℚ → ℚ`, and every theorem that touches
it holds for an arbitrary `rpow`.

A Python `ZeroDivisionError` that the source catches is modelled by the
`if` fallback the handler produces; one that the source does not catch is
modelled by an `Except` error.
-/

namespace Heaty

/-- A raised Python exception escaping a constructor
(`ZeroDivisionError` from the temperature-adjustment divisions of
`building_elements.py`, the `UndefinedTemperatureAdjustment` condition of
the spec's error taxonomy; for `GroundBuildingElement` also the division
`A_g / (0.5 * P)` at `P = 0`, the division in `_calc_U_equiv`, and the
missing-parameter-set case `z < 0` of `_set_U_equiv_params`). -/
inductive CalcError
  | raised
deriving DecidableEq, Repr

/-- The attributes of a `HeatedSpace` that a `BuildingElement` constructor
reads through its `heated_space` back-reference
(`building_elements.py`, `BuildingElement.__init__`, lines 19-31). -/
structure SpaceCtx where
  T_i_d : ℚ
  T_e_d : ℚ
  T_e_an : ℚ
  h_r : ℚ
  gT_a : ℚ
  h_occ : ℚ
  dT_s : ℚ

/-- `BuildingElement._set_T_sm` (building_elements.py lines 37-41):
for `h_r >= 4.0` delegate to `aux.mean_internal_surface_temperature`
(auxiliary.py line 32: `T_sm = T_i_d + gT_a * (h - h_occ) + dT_s` with
`h = h_r`), else the internal design temperature. -/
def T_sm (ctx : SpaceCtx) : ℚ :=
  if 4 ≤ ctx.h_r then ctx.T_i_d + ctx.gT_a * (ctx.h_r - ctx.h_occ) + ctx.dT_s
  else ctx.T_i_d

/-- `BuildingElement._calc_temp_adjust_factor` (building_elements.py lines
43-46).  When `T_i_d = T_e_d` the division raises `ZeroDivisionError`
(either in the `f1` default or, when `f1` is supplied, in `f2`), which no
caller catches; otherwise
`f_T = f1 + (T_sm - T_i_d) / (T_i_d - T_e_d)` with the default
`f1 = (T_i_d - T_adj) / (T_i_d - T_e_d)`. -/
def calc_temp_adjust_factor (ctx : SpaceCtx) (f1 : Option ℚ) (T_adj : ℚ) :
    Except CalcError ℚ :=
  if ctx.T_i_d = ctx.T_e_d then .error .raised
  else
    let f1v :=
      match f1 with
      | some v => v
      | none => (ctx.T_i_d - T_adj) / (ctx.T_i_d - ctx.T_e_d)
    .ok (f1v + (T_sm ctx - ctx.T_i_d) / (ctx.T_i_d - ctx.T_e_d))

/-- The post-construction state of a building element that the
query-time properties read: its area `A` and its stored heat-transfer
coefficient `_H` (both computed once in `__init__`). -/
structure BElemState where
  A : ℚ
  H : ℚ

/-- `ExteriorBuildingElement.__init__` (building_elements.py lines 64-81):
`T_adj = T_e_d`, `H = A * (U + dU_tb) * f_U * f_T`. -/
def mkExterior (ctx : SpaceCtx) (A U dU_tb f_U : ℚ) (f1 : Option ℚ) :
    Except CalcError BElemState :=
  (calc_temp_adjust_factor ctx f1 ctx.T_e_d).map fun f_T =>
    ⟨A, A * (U + dU_tb) * f_U * f_T⟩

/-- `AdjacentBuildingElement.__init__` (building_elements.py lines
93-107): `T_adj` supplied, `H = A * U * f_T`.  Used for the
`adjacent_heated_space`, `adjacent_building_entity` and
`adjacent_unheated_space` categories. -/
def mkAdjacent (ctx : SpaceCtx) (A U T_adj : ℚ) (f1 : Option ℚ) :
    Except CalcError BElemState :=
  (calc_temp_adjust_factor ctx f1 T_adj).map fun f_T =>
    ⟨A, A * U * f_T⟩

/-- `GroundBuildingElement.__init__` (building_elements.py lines 118-170),
with `rpow` standing for Python's real-valued `**`.  The constructor
raises (in source order) on `P = 0` (`_calc_B`), on `z < 0` (neither
branch of `_set_U_equiv_params` fires, so `_calc_U_equiv` hits unset
attributes), and on a zero denominator in `_calc_U_equiv`; `T_adj` is the
annual mean external temperature. -/
def mkGround (rpow : ℚ → ℚ → ℚ) (ctx : SpaceCtx)
    (A U f_dT_an f_gw A_g P dU_tb z : ℚ) (f1 : Option ℚ) :
    Except CalcError BElemState :=
  if P = 0 then .error .raised
  else if z < 0 then .error .raised
  else
    let B := A_g / (1/2 * P)
    let a : ℚ := if z = 0 then 9671/10000 else 93328/100000
    let b : ℚ := if z = 0 then -7455/1000 else -21552/10000
    let c0 : ℚ := if z = 0 then 1076/100 else 0
    let c1 : ℚ := if z = 0 then 9773/1000 else 1466/1000
    let c2 : ℚ := if z = 0 then 265/10000 else 1006/10000
    let d : ℚ := if z = 0 then -203/10000 else -692/10000
    let n0 : ℚ := if z = 0 then 5532/10000 else 0
    let n1 : ℚ := if z = 0 then 6027/10000 else 45325/100000
    let n2 : ℚ := if z = 0 then -9296/10000 else -10068/10000
    let t_B := rpow (c0 + B) n0
    let t_z := rpow (c1 + z) n1
    let t_U := rpow (c2 + U + dU_tb) n2
    if b + t_B + t_z + t_U = 0 then .error .raised
    else
      let U_equiv := a / (b + t_B + t_z + t_U) + d
      (calc_temp_adjust_factor ctx f1 ctx.T_e_an).map fun f_T =>
        ⟨A, f_dT_an * A * U_equiv * f_T * f_gw⟩

/-- The post-construction state of a `HeatedSpace` (building.py lines
9-95): the unpacked input parameters (magnitudes in base units) and the
per-category building-element containers. -/
structure HeatedSpace where
  name : String
  T_i_d : ℚ
  T_e_d : ℚ
  T_e_an : ℚ
  A_fl : ℚ
  V_r : ℚ
  h_r : ℚ
  h_occ : ℚ
  gT_a : ℚ
  dT_s : ℚ
  dT_rad : ℚ
  n_min : ℚ
  V_open : ℚ
  V_ATD_d : ℚ
  V_sup : ℚ
  V_trf : ℚ
  V_exh : ℚ
  V_comb : ℚ
  T_sup : ℚ
  T_trf : ℚ
  q_hu : ℚ
  exterior : List BElemState
  adjacent_heated_space : List BElemState
  adjacent_building_entity : List BElemState
  adjacent_unheated_space : List BElemState
  ground : List BElemState

namespace HeatedSpace

/-- `HeatedSpace.HT_ie` (building.py lines 207-211). -/
def HT_ie (hs : HeatedSpace) : ℚ := (hs.exterior.map BElemState.H).sum

/-- `HeatedSpace.HT_ia` (building.py lines 213-217). -/
def HT_ia (hs : HeatedSpace) : ℚ :=
  (hs.adjacent_heated_space.map BElemState.H).sum

/-- `HeatedSpace.HT_iaBE` (building.py lines 219-223). -/
def HT_iaBE (hs : HeatedSpace) : ℚ :=
  (hs.adjacent_building_entity.map BElemState.H).sum

/-- `HeatedSpace.HT_iae` (building.py lines 225-230). -/
def HT_iae (hs : HeatedSpace) : ℚ :=
  (hs.adjacent_unheated_space.map BElemState.H).sum

/-- `HeatedSpace.HT_ig` (building.py lines 232-236). -/
def HT_ig (hs : HeatedSpace) : ℚ := (hs.ground.map BElemState.H).sum

/-- `HeatedSpace.Q_trm` (building.py lines 238-249): all five category
coefficients times `T_i_d - T_e_d`. -/
def Q_trm (hs : HeatedSpace) : ℚ :=
  (hs.HT_ie + hs.HT_ia + hs.HT_iaBE + hs.HT_iae + hs.HT_ig) *
    (hs.T_i_d - hs.T_e_d)

/-- `HeatedSpace.T_ia` (building.py lines 251-262): for `h_r >= 4.0`
delegate to `aux.mean_internal_air_temperature` (auxiliary.py line 60:
`T_ai = T_i_d + gT_a * (0.5 * h - h_occ) - dT_rad` with `h = h_r`),
else `T_i_d`. -/
def T_ia (hs : HeatedSpace) : ℚ :=
  if 4 ≤ hs.h_r then hs.T_i_d + hs.gT_a * (1/2 * hs.h_r - hs.h_occ) - hs.dT_rad
  else hs.T_i_d

/-- `HeatedSpace.A_env` (building.py lines 264-273): exterior plus
adjacent-unheated-space areas. -/
def A_env (hs : HeatedSpace) : ℚ :=
  (hs.exterior.map BElemState.A).sum +
    (hs.adjacent_unheated_space.map BElemState.A).sum

/-- `HeatedSpace.V_min` (building.py lines 295-297). -/
def V_min (hs : HeatedSpace) : ℚ := hs.n_min * hs.V_r

/-- `HeatedSpace.V_tech` (building.py lines 299-301). -/
def V_tech (hs : HeatedSpace) : ℚ :=
  max (hs.V_sup + hs.V_trf) (hs.V_exh + hs.V_comb)

/-- `HeatedSpace.Q_hu` (building.py lines 312-316). -/
def Q_hu (hs : HeatedSpace) : ℚ := hs.A_fl * hs.q_hu

/-- `HeatedSpace.Q_gain` (building.py lines 318-321): constant 0. -/
def Q_gain (_hs : HeatedSpace) : ℚ := 0

end HeatedSpace

/-- The post-construction state of a `VentilationZone` (building.py lines
329-369): the unpacked zone parameters and the owned heated spaces (the
values of the name-keyed `heated_spaces` dict, in insertion order; each
space's name is stored in the space itself). -/
structure VentilationZone where
  name : String
  q_env_50 : ℚ
  V_ATD_d : ℚ
  dP_ATD_d : ℚ
  v_leak : ℚ
  f_fac : ℚ
  f_V : ℚ
  f_dir : ℚ
  f_iz : ℚ
  heated_spaces : List HeatedSpace

namespace VentilationZone

/-- `VentilationZone.A_env` (building.py lines 371-376). -/
def A_env (vz : VentilationZone) : ℚ :=
  (vz.heated_spaces.map HeatedSpace.A_env).sum

/-- `VentilationZone.V_ATD_50` (building.py lines 378-380):
`V_ATD_d * (50 / dP_ATD_d) ** v_leak`, with `rpow` for the real power.
(The source divides by `dP_ATD_d` unguarded; rational division is total,
so the model assumes `dP_ATD_d ≠ 0`, its source default being 4.) -/
def V_ATD_50 (rpow : ℚ → ℚ → ℚ) (vz : VentilationZone) : ℚ :=
  vz.V_ATD_d * rpow (50 / vz.dP_ATD_d) vz.v_leak

/-- `VentilationZone.V_exh` (building.py lines 382-385). -/
def V_exh (vz : VentilationZone) : ℚ :=
  (vz.heated_spaces.map (fun hs => hs.V_exh)).sum

/-- `VentilationZone.V_comb` (building.py lines 387-390). -/
def V_comb (vz : VentilationZone) : ℚ :=
  (vz.heated_spaces.map (fun hs => hs.V_comb)).sum

/-- `VentilationZone.V_sup` (building.py lines 392-395). -/
def V_sup (vz : VentilationZone) : ℚ :=
  (vz.heated_spaces.map (fun hs => hs.V_sup)).sum

/-- `VentilationZone.f_e` (building.py lines 397-404):
`1 / (1 + (f_fac / f_V) * (n / d) ** 2)` with the whole expression
guarded by `except ZeroDivisionError: return 1.0`, which fires when
`f_V = 0`, when `d = 0`, or when the outer denominator vanishes. -/
def f_e (rpow : ℚ → ℚ → ℚ) (vz : VentilationZone) : ℚ :=
  let n := vz.V_exh + vz.V_comb - vz.V_sup
  let d := vz.q_env_50 * vz.A_env + vz.V_ATD_50 rpow
  if vz.f_V = 0 ∨ d = 0 ∨ 1 + vz.f_fac / vz.f_V * (n / d) ^ 2 = 0 then 1
  else 1 / (1 + vz.f_fac / vz.f_V * (n / d) ^ 2)

/-- `VentilationZone.V_inf_add` (building.py lines 406-408). -/
def V_inf_add (rpow : ℚ → ℚ → ℚ) (vz : VentilationZone) : ℚ :=
  (vz.q_env_50 * vz.A_env + vz.V_ATD_50 rpow) * vz.f_V * vz.f_e rpow

/-- `VentilationZone.V_env` (building.py lines 410-412). -/
def V_env (rpow : ℚ → ℚ → ℚ) (vz : VentilationZone) : ℚ :=
  max (vz.V_exh + vz.V_comb - vz.V_sup) 0 + vz.V_inf_add rpow

/-- `VentilationZone.a_ATD` (building.py lines 414-419), 0 on the caught
`ZeroDivisionError`. -/
def a_ATD (rpow : ℚ → ℚ → ℚ) (vz : VentilationZone) : ℚ :=
  if vz.V_ATD_50 rpow + vz.q_env_50 * vz.A_env = 0 then 0
  else vz.V_ATD_50 rpow / (vz.V_ATD_50 rpow + vz.q_env_50 * vz.A_env)

/-- `VentilationZone.V_leak` (building.py lines 421-423). -/
def V_leak (rpow : ℚ → ℚ → ℚ) (vz : VentilationZone) : ℚ :=
  (1 - vz.a_ATD rpow) * vz.V_env rpow

/-- `VentilationZone.V_ATD` (building.py lines 425-427). -/
def V_ATD (rpow : ℚ → ℚ → ℚ) (vz : VentilationZone) : ℚ :=
  vz.a_ATD rpow * vz.V_env rpow

end VentilationZone

namespace HeatedSpace

/-- `HeatedSpace.V_leak_ATD` (building.py lines 275-283), reading the
owning zone through the `ventilation_zone` back-reference (here passed as
`vz`): zone leakage and ATD flow apportioned by area and ATD-design
fractions, with `except ZeroDivisionError: return 0.0` firing when the
zone's `A_env` or `V_ATD_d` is zero. -/
def V_leak_ATD (rpow : ℚ → ℚ → ℚ) (vz : VentilationZone)
    (hs : HeatedSpace) : ℚ :=
  if vz.A_env = 0 ∨ vz.V_ATD_d = 0 then 0
  else
    vz.V_leak rpow * (hs.A_env / vz.A_env) +
      vz.V_ATD rpow * (hs.V_ATD_d / vz.V_ATD_d)

/-- `HeatedSpace.V_env` (building.py lines 285-293), guarded to 0 by the
caught `ZeroDivisionError` when the zone's `V_env` is zero. -/
def V_env (rpow : ℚ → ℚ → ℚ) (vz : VentilationZone) (hs : HeatedSpace) : ℚ :=
  if vz.V_env rpow = 0 then 0
  else
    vz.V_inf_add rpow / vz.V_env rpow *
        min (vz.V_env rpow) (hs.V_leak_ATD rpow vz * vz.f_dir) +
      (vz.V_env rpow - vz.V_inf_add rpow) / vz.V_env rpow *
        hs.V_leak_ATD rpow vz

/-- `HeatedSpace.Q_ven` (building.py lines 303-310); 0.34 = 17/50. -/
def Q_ven (rpow : ℚ → ℚ → ℚ) (vz : VentilationZone) (hs : HeatedSpace) : ℚ :=
  let VT_inf := max (hs.V_env rpow vz + hs.V_open) (hs.V_min - hs.V_tech) *
    (hs.T_ia - hs.T_e_d)
  let VT_sup := hs.V_sup * (hs.T_ia - hs.T_sup)
  let VT_trf := hs.V_trf * (hs.T_ia - hs.T_trf)
  17/50 * (VT_inf + VT_sup + VT_trf)

/-- `HeatedSpace.Q_load` (building.py lines 323-326). -/
def Q_load (rpow : ℚ → ℚ → ℚ) (vz : VentilationZone) (hs : HeatedSpace) : ℚ :=
  hs.Q_trm + hs.Q_ven rpow vz + hs.Q_hu - hs.Q_gain

end HeatedSpace

/-- `VentilationZone.Q_ven` (building.py lines 442-452): the zone-level
infiltration formula over its member spaces (using `f_iz * V_min`),
distinct from summing the spaces' own `Q_ven`. -/
def VentilationZone.Q_ven (rpow : ℚ → ℚ → ℚ) (vz : VentilationZone) : ℚ :=
  17/50 *
    (vz.heated_spaces.map (fun hs =>
      max (hs.V_leak_ATD rpow vz + hs.V_open)
          (vz.f_iz * hs.V_min - hs.V_tech) * (hs.T_ia - hs.T_e_d) +
        hs.V_sup * (hs.T_ia - hs.T_sup) +
        hs.V_trf * (hs.T_ia - hs.T_trf))).sum

/-- The post-construction state of a `BuildingEntity` (building.py lines
455-460): its name and the values of its name-keyed `ventilation_zones`
dict in insertion order. -/
structure BuildingEntity where
  name : String
  ventilation_zones : List VentilationZone

namespace BuildingEntity

/-- `BuildingEntity.heated_spaces` (building.py lines 462-468). -/
def heated_spaces (be : BuildingEntity) : List HeatedSpace :=
  (be.ventilation_zones.map VentilationZone.heated_spaces).flatten

/-- `BuildingEntity.Q_trm` (building.py lines 470-479): per-space
accumulation over the `exterior`, `adjacent_unheated_space`,
`adjacent_building_entity` and `ground` categories only. -/
def Q_trm (be : BuildingEntity) : ℚ :=
  (be.heated_spaces.map (fun hs => hs.HT_ie * (hs.T_i_d - hs.T_e_d))).sum +
    (be.heated_spaces.map (fun hs => hs.HT_iae * (hs.T_i_d - hs.T_e_d))).sum +
    (be.heated_spaces.map (fun hs => hs.HT_iaBE * (hs.T_i_d - hs.T_e_d))).sum +
    (be.heated_spaces.map (fun hs => hs.HT_ig * (hs.T_i_d - hs.T_e_d))).sum

/-- `BuildingEntity.Q_ven` (building.py lines 481-484). -/
def Q_ven (rpow : ℚ → ℚ → ℚ) (be : BuildingEntity) : ℚ :=
  (be.ventilation_zones.map (fun vz => vz.Q_ven rpow)).sum

/-- `BuildingEntity.Q_hu` (building.py lines 486-489). -/
def Q_hu (be : BuildingEntity) : ℚ :=
  (be.heated_spaces.map HeatedSpace.Q_hu).sum

/-- `BuildingEntity.Q_gain` (building.py lines 491-494). -/
def Q_gain (be : BuildingEntity) : ℚ :=
  (be.heated_spaces.map HeatedSpace.Q_gain).sum

/-- `BuildingEntity.Q_load` (building.py lines 496-500). -/
def Q_load (rpow : ℚ → ℚ → ℚ) (be : BuildingEntity) : ℚ :=
  be.Q_trm + be.Q_ven rpow + be.Q_hu - be.Q_gain

end BuildingEntity

/-- The state of a `Building` (building.py lines 503-507): its name and
the values of its name-keyed `building_entities` dict in insertion
order. -/
structure Building where
  name : String
  building_entities : List BuildingEntity

namespace Building

/-- All descendant heated spaces, in the iteration order of
`Building.Q_trm` (building.py lines 512-513). -/
def descendant_spaces (b : Building) : List HeatedSpace :=
  (b.building_entities.map BuildingEntity.heated_spaces).flatten

/-- `Building.Q_trm` (building.py lines 509-518): per-space accumulation
over the `exterior`, `adjacent_unheated_space` and `ground` categories
only (`Q_ie + Q_iae + Q_ig`). -/
def Q_trm (b : Building) : ℚ :=
  (b.descendant_spaces.map (fun hs => hs.HT_ie * (hs.T_i_d - hs.T_e_d))).sum +
    (b.descendant_spaces.map
      (fun hs => hs.HT_iae * (hs.T_i_d - hs.T_e_d))).sum +
    (b.descendant_spaces.map
      (fun hs => hs.HT_ig * (hs.T_i_d - hs.T_e_d))).sum

/-- `Building.Q_ven` (building.py lines 520-523). -/
def Q_ven (rpow : ℚ → ℚ → ℚ) (b : Building) : ℚ :=
  (b.building_entities.map (fun be => be.Q_ven rpow)).sum

/-- `Building.Q_hu` (building.py lines 525-528). -/
def Q_hu (b : Building) : ℚ :=
  (b.building_entities.map BuildingEntity.Q_hu).sum

/-- `Building.Q_gain` (building.py lines 530-533). -/
def Q_gain (b : Building) : ℚ :=
  (b.building_entities.map BuildingEntity.Q_gain).sum

/-- `Building.Q_load` (building.py lines 535-539). -/
def Q_load (rpow : ℚ → ℚ → ℚ) (b : Building) : ℚ :=
  b.Q_trm + b.Q_ven rpow + b.Q_hu - b.Q_gain

end Building

/-! ### Parameter ingestion: `UnPacker.unpack` (model/__init__.py) -/

/-- Round-to-nearest with ties to the even integer, the rounding of
Python's decimal `g` formatting. -/
def roundHalfEven (q : ℚ) : ℤ :=
  let f := ⌊q⌋
  if q - f < 1/2 then f
  else if 1/2 < q - f then f + 1
  else if 2 ∣ f then f else f + 1

/-- The decimal exponent of a non-zero rational: the `d` with
`10 ^ d ≤ |x| < 10 ^ (d + 1)` (the position `%g` formatting rounds
relative to). -/
def decExp (x : ℚ) : ℤ :=
  if x.num.natAbs ≥ x.den then (Nat.log 10 (x.num.natAbs / x.den) : ℤ)
  else -((Nat.log 10 ((x.den - 1) / x.num.natAbs) + 1 : ℕ) : ℤ)

/-- `10 ^ e` for an integer exponent, as a rational. -/
def pow10 (e : ℤ) : ℚ :=
  if 0 ≤ e then (10 : ℚ) ^ e.natAbs else 1 / (10 : ℚ) ^ e.natAbs

/-- The 6-significant-digit rounding that `Quantity.__call__`
(quantity/scalar.py line 51, `float(f"{qty.magnitude:.6g}")`) applies to
every magnitude it returns: round the value to six significant decimal
digits (keep the digits at positions `decExp x` down to `decExp x - 5`,
rounding the rest to nearest).  The magnitude itself is modelled as an
exact rational rather than a binary float, so `%g`'s ties are taken at
the exact decimal midpoint and broken to even. -/
def round6g (x : ℚ) : ℚ :=
  if x = 0 then 0
  else
    let scale := pow10 (decExp x - 5)
    (roundHalfEven (x / scale) : ℚ) * scale

/-- A value looked up in a parameter mapping (or the default used when the
key is absent): Python `None`, a bare number, or a `Quantity` whose
magnitude `x` is taken in the canonical base unit of the field (unit
conversion at the field's own unit is the identity on the magnitude). -/
inductive PValue
  | pnone
  | num (x : ℚ)
  | qty (x : ℚ)
deriving DecidableEq, Repr

/-- `UnPacker.unpack` (model/__init__.py lines 10-17) applied to the value
`val` fetched from the mapping (or the default): a `Quantity` is converted
by `val(unit)`, whose result passes through `Quantity.__call__`'s
6-significant-digit formatting (`round6g`); otherwise any falsy value —
`None`, but also the bare number `0` — becomes `None`; any other bare
number is returned as is, unrounded.  `none` models the stored Python
`None`. -/
def unpack (val : PValue) : Option ℚ :=
  match val with
  | .qty x => some (round6g x)
  | .num x => if x = 0 then none else some x
  | .pnone => none

/-! ### Project file loading (model/fileio.py `load`) -/

/-- The deserialized root object of a project file: a `Building`, or any
other pickled object. -/
inductive RootObj
  | building (b : Building)
  | other

/-- The failures of `fileio.load`: the `FileNotFoundError` raised when the
filename is falsy or its suffix is not `.hlc`, and the `ValueError`
("selected file is not a valid HLC file", the spec's `InvalidProjectFile`)
raised when the deserialized root is not a `Building`. -/
inductive LoadError
  | fileNotFound
  | invalidProjectFile
deriving DecidableEq, Repr

/-- `fileio.load` (fileio.py lines 8-17), modelled on the filename's
suffix (`Path(filename).suffix`; a falsy filename has suffix `""` and
takes the same `FileNotFoundError` branch) and on the object `root` that
`pickle.load` would return for that file. -/
def load (suffix : String) (root : RootObj) : Except LoadError Building :=
  if suffix = ".hlc" then
    match root with
    | .building b => .ok b
    | .other => .error .invalidProjectFile
  else .error .fileNotFound

/-! ### CSV export (model/fileio.py `ExportToCsv`) -/

/-- One CSV cell: a string (names, the empty cells) or a numeric value
(the `.value` magnitude of a `Qty`, in W). -/
inductive Cell
  | str (s : String)
  | num (q : ℚ)

/-- `ExportToCsv._create_header_row` (fileio.py lines 50-58). -/
def create_header_row : List Cell :=
  [.str "name", .str "transmission heat loss", .str "ventilation heat loss",
    .str "heating-up power", .str "total heat loss"]

/-- `ExportToCsv._create_bu_row` (fileio.py lines 60-68). -/
def create_bu_row (rpow : ℚ → ℚ → ℚ) (b : Building) : List Cell :=
  [.str b.name, .num b.Q_trm, .num (b.Q_ven rpow), .num b.Q_hu,
    .num (b.Q_load rpow)]

/-- `ExportToCsv._create_be_row` (fileio.py lines 70-79). -/
def create_be_row (rpow : ℚ → ℚ → ℚ) (be : BuildingEntity) : List Cell :=
  [.str be.name, .num be.Q_trm, .num (be.Q_ven rpow), .num be.Q_hu,
    .num (be.Q_load rpow)]

/-- `ExportToCsv._create_vz_row` (fileio.py lines 81-90): only the name
and the ventilation loss are populated; the transmission-loss,
heating-up-power and total cells are empty strings. -/
def create_vz_row (rpow : ℚ → ℚ → ℚ) (vz : VentilationZone) : List Cell :=
  [.str vz.name, .str "", .num (vz.Q_ven rpow), .str "", .str ""]

/-- `ExportToCsv._create_hs_row` (fileio.py lines 92-101); the space's
`Q_ven`/`Q_load` read the owning zone through the back-reference, passed
here as `vz`. -/
def create_hs_row (rpow : ℚ → ℚ → ℚ) (vz : VentilationZone)
    (hs : HeatedSpace) : List Cell :=
  [.str hs.name, .num hs.Q_trm, .num (hs.Q_ven rpow vz), .num hs.Q_hu,
    .num (hs.Q_load rpow vz)]

/-- `ExportToCsv._create_rows` (fileio.py lines 40-48): header, building
row, then for each building entity its row followed, for each of its
ventilation zones, by the zone row and the rows of the zone's heated
spaces. -/
def create_rows (rpow : ℚ → ℚ → ℚ) (b : Building) : List (List Cell) :=
  create_header_row :: create_bu_row rpow b ::
    (b.building_entities.map (fun be =>
      create_be_row rpow be ::
        (be.ventilation_zones.map (fun vz =>
          create_vz_row rpow vz ::
            vz.heated_spaces.map (create_hs_row rpow vz))).flatten)).flatten

/-- Number of building entities of a building. -/
def Building.numBE (b : Building) : ℕ := b.building_entities.length

/-- Total number of ventilation zones over all building entities. -/
def Building.numVZ (b : Building) : ℕ :=
  (b.building_entities.map (fun be => be.ventilation_zones.length)).sum

/-- Total number of heated spaces over all ventilation zones. -/
def Building.numHS (b : Building) : ℕ := b.descendant_spaces.length

/-! ### Entity factories with object identity (gui/controller.py)

The replace-capable factories work on Python object references: the new
zone receives the *same* `heated_spaces` dict object, and each heated
space keeps its `ventilation_zone` back-reference to the *old* zone
instance.  To state this, objects live in a heap addressed by `Nat`
identities; a name-keyed `dict` is an insertion-ordered association list
of (name, identity) pairs. -/

/-- The unpacked constructor parameters of a `VentilationZone`
(building.py lines 360-369). -/
structure VZParams where
  q_env_50 : ℚ
  V_ATD_d : ℚ
  dP_ATD_d : ℚ
  v_leak : ℚ
  f_fac : ℚ
  f_V : ℚ
  f_dir : ℚ
  f_iz : ℚ

/-- Heap state of a `HeatedSpace` (building.py line 95): its numeric
state plus the `ventilation_zone` back-reference. -/
structure HSData where
  vzRef : ℕ
  hs : HeatedSpace

/-- Heap state of a `VentilationZone` (building.py lines 356-369): name,
parameters, the `heated_spaces` dict (name → space identity), and the
`building_entity` back-reference. -/
structure VZData where
  name : String
  ps : VZParams
  heated_spaces : List (String × ℕ)
  beRef : ℕ

/-- Heap state of a `BuildingEntity` (building.py lines 457-460). -/
structure BEData where
  name : String
  ventilation_zones : List (String × ℕ)

/-- The mutable object graph: three heaps (spaces, zones, entities) with
a fresh-identity counter, and the root building's `building_entities`
dict. -/
structure Store where
  spaces : ℕ → Option HSData
  zones : ℕ → Option VZData
  entities : ℕ → Option BEData
  building_entities : List (String × ℕ)
  next : ℕ

/-- Python `dict.get` on a name-keyed dict. -/
def lookupName (nm : String) : List (String × ℕ) → Option ℕ
  | [] => none
  | (k, v) :: t => if k = nm then some v else lookupName nm t

/-- Python `d[nm] = v`: overwrite in place when the key exists (keeping
its position), append otherwise. -/
def dictSet (nm : String) (v : ℕ) : List (String × ℕ) → List (String × ℕ)
  | [] => [(nm, v)]
  | (k, w) :: t => if k = nm then (k, v) :: t else (k, w) :: dictSet nm v t

/-- Write a zone object at heap address `i`. -/
def setZone (s : Store) (i : ℕ) (zd : VZData) : Store :=
  { s with zones := fun j => if j = i then some zd else s.zones j }

/-- Write an entity object at heap address `i`. -/
def setEntity (s : Store) (i : ℕ) (bd : BEData) : Store :=
  { s with entities := fun j => if j = i then some bd else s.entities j }

/-- `VentilationZoneFactory.create` (controller.py lines 59-71) with the
factory's `building_entity` class attribute given as `beId`: construct a
new `VentilationZone` (a fresh heap object at address `s.next`); if no
zone of that name exists in the entity's dict the new zone starts with an
empty `heated_spaces` dict and the dict entry is appended, otherwise the
new zone receives the existing zone's `heated_spaces` dict
(`vz_new.heated_spaces = vz.heated_spaces`) and replaces it under the
same key. -/
def createVZ (s : Store) (beId : ℕ) (nm : String) (ps : VZParams) : Store :=
  (s.entities beId).elim s fun beData =>
    let migrated := ((lookupName nm beData.ventilation_zones).bind s.zones).elim
      [] VZData.heated_spaces
    let s1 := setZone s s.next ⟨nm, ps, migrated, beId⟩
    let s2 := setEntity s1 beId
      ⟨beData.name, dictSet nm s.next beData.ventilation_zones⟩
    { s2 with next := s.next + 1 }

/-- `BuildingEntityFactory.create` (controller.py lines 39-56) acting on
the root building's dict: construct a new `BuildingEntity` (fresh heap
object); when an entity of that name exists, shift its
`ventilation_zones` dict onto the new instance and replace the entry. -/
def createBE (s : Store) (nm : String) : Store :=
  let migrated := ((lookupName nm s.building_entities).bind s.entities).elim
    [] BEData.ventilation_zones
  let s1 := setEntity s s.next ⟨nm, migrated⟩
  { s1 with building_entities := dictSet nm s.next s.building_entities,
            next := s.next + 1 }

/-- Resolve a heap zone object to the pure numeric `VentilationZone`:
its eight parameters plus the member spaces fetched from the heap. -/
def zoneView (s : Store) (zd : VZData) : VentilationZone :=
  { name := zd.name
    q_env_50 := zd.ps.q_env_50
    V_ATD_d := zd.ps.V_ATD_d
    dP_ATD_d := zd.ps.dP_ATD_d
    v_leak := zd.ps.v_leak
    f_fac := zd.ps.f_fac
    f_V := zd.ps.f_V
    f_dir := zd.ps.f_dir
    f_iz := zd.ps.f_iz
    heated_spaces := zd.heated_spaces.filterMap fun p =>
      (s.spaces p.2).map HSData.hs }

/-- `HeatedSpace.V_leak_ATD` as evaluated on the live object graph: the
space at `sid` reads its owning zone through its `ventilation_zone`
back-reference (building.py lines 275-283). -/
def V_leak_ATD_heap (rpow : ℚ → ℚ → ℚ) (s : Store) (sid : ℕ) : Option ℚ :=
  (s.spaces sid).bind fun hd =>
    (s.zones hd.vzRef).map fun zd =>
      (hd.hs).V_leak_ATD rpow (zoneView s zd)

/-! ### Concrete fixtures used by counterexamples and witnesses -/

/-- A trivial instantiation of the abstract real-power parameter, used
only to instantiate witnesses whose statements do not depend on it. -/
def rpow0 : ℚ → ℚ → ℚ := fun _ _ => 0

/-- Extract a successfully constructed element state. -/
def okD : Except CalcError BElemState → BElemState
  | .ok v => v
  | .error _ => ⟨0, 0⟩

/-- Space context of the spec's concrete scenario: `T_i_d = 20 °C`,
`T_e_d = −10 °C`, `h_r = 2.5 m` (annual mean 10 °C, defaults
`gT_a = 1`, `h_occ = 1`, `dT_s = 0`). -/
def ctxC1 : SpaceCtx := ⟨20, -10, 10, 5/2, 1, 1, 0⟩

/-- An `adjacent_heated_space` element (`A = 1 m²`, `U = 1 W/(m²K)`,
`T_adj = 15 °C`, `f1` not supplied) constructed in context `ctxC1`:
`f_T = (20 − 15)/30 = 1/6`, `H = 1/6 W/K`. -/
def adjC1 : BElemState := okD (mkAdjacent ctxC1 1 1 15 none)

/-- The spec's concrete exterior element: `A = 10 m²`,
`U = 1 W/(m²K)`, `dU_tb = 0.1`, `f_U = 1`, `f1` not supplied. -/
def extC6 : BElemState := okD (mkExterior ctxC1 10 1 (1/10) 1 none)

/-- A heated space in context `ctxC1` whose only building element is the
`adjacent_heated_space` element `adjC1`. -/
def hsC1 : HeatedSpace :=
  { name := "office"
    T_i_d := 20, T_e_d := -10, T_e_an := 10
    A_fl := 12, V_r := 30, h_r := 5/2, h_occ := 1, gT_a := 1
    dT_s := 0, dT_rad := 0, n_min := 1/2
    V_open := 0, V_ATD_d := 0, V_sup := 0, V_trf := 0, V_exh := 0
    V_comb := 0, T_sup := 20, T_trf := 20, q_hu := 0
    exterior := []
    adjacent_heated_space := [adjC1]
    adjacent_building_entity := []
    adjacent_unheated_space := []
    ground := [] }

/-- The spec's concrete-scenario heated space: its only element is the
exterior element `extC6`. -/
def hsC6 : HeatedSpace :=
  { name := "room"
    T_i_d := 20, T_e_d := -10, T_e_an := 10
    A_fl := 10, V_r := 25, h_r := 5/2, h_occ := 1, gT_a := 1
    dT_s := 0, dT_rad := 0, n_min := 1/2
    V_open := 0, V_ATD_d := 0, V_sup := 0, V_trf := 0, V_exh := 0
    V_comb := 0, T_sup := 20, T_trf := 20, q_hu := 0
    exterior := [extC6]
    adjacent_heated_space := []
    adjacent_building_entity := []
    adjacent_unheated_space := []
    ground := [] }

/-- A ventilation zone (source defaults: `dP_ATD_d = 4`,
`v_leak = 0.67`, `f_fac = 12`, `f_V = 0.05`, `f_dir = 2`, `f_iz = 0.5`)
owning the single space `hsC1`. -/
def vzC1 : VentilationZone :=
  { name := "zone", q_env_50 := 1, V_ATD_d := 0, dP_ATD_d := 4
    v_leak := 67/100, f_fac := 12, f_V := 1/20, f_dir := 2, f_iz := 1/2
    heated_spaces := [hsC1] }

/-- A ventilation zone with no member spaces (so `A_env = 0`) and
`V_ATD_d = 0`. -/
def vzC4 : VentilationZone :=
  { name := "empty-zone", q_env_50 := 1, V_ATD_d := 0, dP_ATD_d := 4
    v_leak := 67/100, f_fac := 12, f_V := 1/20, f_dir := 2, f_iz := 1/2
    heated_spaces := [] }

/-- Building entity owning the single zone `vzC1`. -/
def beC1 : BuildingEntity := ⟨"entity", [vzC1]⟩

/-- One-entity, one-zone, one-space building whose only building element
is an `adjacent_heated_space` element with a non-zero heat-transfer
coefficient. -/
def bC1 : Building := ⟨"house", [beC1]⟩

/-- Space context with `T_i_d = T_e_d = 20 °C`. -/
def ctxEq : SpaceCtx := ⟨20, 20, 10, 5/2, 1, 1, 0⟩

/-- Zone constructor parameters for the factory fixtures. -/
def psW : VZParams := ⟨1, 0, 4, 67/100, 12, 1/20, 2, 1/2⟩

/-- Replacement zone constructor parameters (a modified `q_env_50`). -/
def psW2 : VZParams := ⟨3, 0, 4, 67/100, 12, 1/20, 2, 1/2⟩

/-- Heap zone object at address 1: zone "Z" of entity 0 owning the
spaces "office" (address 2) and "room" (address 6). -/
def zdW : VZData := ⟨"Z", psW, [("office", 2), ("room", 6)], 0⟩

/-- Heap zone object at address 4: zone "W" of entity 3, no spaces. -/
def vzdW : VZData := ⟨"W", psW, [], 3⟩

/-- A concrete object graph: entity 0 (dict entry "Z" ↦ zone 1), zone 1
owning space 2 (whose `ventilation_zone` back-reference is 1), entity 3
(registered in the building dict as "E3", dict entry "W" ↦ zone 4), and
fresh-identity counter 5. -/
def sW : Store :=
  { spaces := fun n =>
      if n = 2 then some ⟨1, hsC1⟩
      else if n = 6 then some ⟨1, hsC6⟩ else none
    zones := fun n =>
      if n = 1 then some zdW else if n = 4 then some vzdW else none
    entities := fun n =>
      if n = 0 then some ⟨"E0", [("Z", 1)]⟩
      else if n = 3 then some ⟨"E3", [("W", 4)]⟩ else none
    building_entities := [("E3", 3)]
    next := 7 }

/-! ## Theorems -/

/-- Sum of a pointwise sum of rational-valued maps splits. -/
theorem sum_map_addQ {α : Type} (l : List α) (f g : α → ℚ) :
    (l.map (fun x => f x + g x)).sum = (l.map f).sum + (l.map g).sum := by
  induction l with
  | nil => simp
  | cons a t ih => simp [ih]; ring

/-- C1 (counterexample): for the one-space building `bC1`, whose space has
a single `adjacent_heated_space` element with non-zero heat-transfer
coefficient, `Building.Q_trm` (which sums only the exterior,
adjacent-unheated-space and ground contributions) is not the sum of the
descendant spaces' own `Q_trm` (which also includes the
`adjacent_heated_space` and `adjacent_building_entity` contributions). -/
theorem building_Q_trm_claim_counterexample :
    bC1.descendant_spaces.length = 1 ∧
    bC1.Q_trm ≠ (bC1.descendant_spaces.map HeatedSpace.Q_trm).sum := by
  constructor
  · rfl
  · norm_num [Building.Q_trm, Building.descendant_spaces,
      BuildingEntity.heated_spaces, bC1, beC1, vzC1, hsC1, adjC1, okD,
      mkAdjacent, calc_temp_adjust_factor, T_sm, ctxC1, HeatedSpace.Q_trm,
      HeatedSpace.HT_ie, HeatedSpace.HT_ia, HeatedSpace.HT_iaBE,
      HeatedSpace.HT_iae, HeatedSpace.HT_ig, Except.map]

/-- C1 (amended): for every `Building`, `Building.Q_trm` equals the sum
over all descendant `HeatedSpace`s of their own `Q_trm` minus each
space's `adjacent_heated_space` and `adjacent_building_entity`
contributions `(HT_ia + HT_iaBE) * (T_i_d - T_e_d)`: the building-level
sum omits exactly those two categories. -/
theorem building_Q_trm_eq_sum_spaces_minus_internal (b : Building) :
    b.Q_trm = (b.descendant_spaces.map (fun hs =>
      hs.Q_trm - (hs.HT_ia + hs.HT_iaBE) * (hs.T_i_d - hs.T_e_d))).sum := by
  have hfun : (fun hs : HeatedSpace =>
        hs.Q_trm - (hs.HT_ia + hs.HT_iaBE) * (hs.T_i_d - hs.T_e_d)) =
      fun hs : HeatedSpace =>
        hs.HT_ie * (hs.T_i_d - hs.T_e_d) +
          (hs.HT_iae * (hs.T_i_d - hs.T_e_d) +
            hs.HT_ig * (hs.T_i_d - hs.T_e_d)) := by
    funext hs
    unfold HeatedSpace.Q_trm
    ring
  rw [hfun, sum_map_addQ, sum_map_addQ]
  unfold Building.Q_trm
  ring

/-- C3: whenever a heated space's internal design temperature equals the
external design temperature, constructing any of the three building
element variants reports an error to the caller (the raised
`ZeroDivisionError` of the undefined temperature adjustment); no variant
substitutes a default factor. -/
theorem element_construction_raises_on_equal_design_temps
    (rpow : ℚ → ℚ → ℚ) (ctx : SpaceCtx)
    (A U dU_tb f_U T_adj f_dT_an f_gw A_g P z : ℚ) (f1 : Option ℚ)
    (h : ctx.T_i_d = ctx.T_e_d) :
    mkExterior ctx A U dU_tb f_U f1 = .error .raised ∧
    mkAdjacent ctx A U T_adj f1 = .error .raised ∧
    mkGround rpow ctx A U f_dT_an f_gw A_g P dU_tb z f1 = .error .raised := by
  refine ⟨?_, ?_, ?_⟩
  · simp [mkExterior, calc_temp_adjust_factor, h, Except.map]
  · simp [mkAdjacent, calc_temp_adjust_factor, h, Except.map]
  · simp only [mkGround]
    split_ifs <;> simp [calc_temp_adjust_factor, h, Except.map]

/-- C3 witness: concrete element constructions at `T_i_d = T_e_d = 20`. -/
theorem element_construction_raises_witness :
    mkExterior ctxEq 1 1 (1/10) 1 none = .error .raised ∧
    mkAdjacent ctxEq 1 1 15 none = .error .raised ∧
    mkGround rpow0 ctxEq 1 1 1 1 20 20 (1/10) 0 none = .error .raised :=
  element_construction_raises_on_equal_design_temps rpow0 ctxEq
    1 1 (1/10) 1 15 1 1 20 20 0 none rfl

/-- C4: a heated space whose owning zone has `A_env = 0` and
`V_ATD_d = 0` reads `V_leak_ATD = 0` (the caught division fallback), and
a zone whose unbalance-ratio denominator `q_env_50 * A_env + V_ATD_50`
is zero, or whose `f_V` is zero, reads `f_e = 1` — in both cases without
any error escaping. -/
theorem apportionment_division_fallbacks
    (rpow : ℚ → ℚ → ℚ) (vz : VentilationZone) (hs : HeatedSpace) :
    (vz.A_env = 0 → vz.V_ATD_d = 0 → hs.V_leak_ATD rpow vz = 0) ∧
    (vz.q_env_50 * vz.A_env + vz.V_ATD_50 rpow = 0 ∨ vz.f_V = 0 →
      vz.f_e rpow = 1) := by
  constructor
  · intro h1 _h2
    simp [HeatedSpace.V_leak_ATD, h1]
  · intro h
    rcases h with h | h
    · simp [VentilationZone.f_e, h]
    · simp [VentilationZone.f_e, h]

/-- C4 witness: the empty zone `vzC4` (zero envelope, zero ATD flow). -/
theorem apportionment_division_fallbacks_witness :
    hsC1.V_leak_ATD rpow0 vzC4 = 0 ∧ vzC4.f_e rpow0 = 1 := by
  constructor
  · exact (apportionment_division_fallbacks rpow0 vzC4 hsC1).1
      (by norm_num [VentilationZone.A_env, vzC4])
      (by norm_num [vzC4])
  · exact (apportionment_division_fallbacks rpow0 vzC4 hsC1).2
      (Or.inl (by norm_num [VentilationZone.A_env, VentilationZone.V_ATD_50,
        vzC4, rpow0]))

/-- C5 (counterexample): the claimed bare-number/Quantity agreement fails
twice on the code.  A bare `0` is falsy, so `UnPacker.unpack` stores
`None` for it while the `Quantity` `(0, u)` is stored as the value `0`;
and beyond six significant digits the `Quantity` path is rounded by
`Quantity.__call__` while the bare number is stored exactly: the bare
number `1234567` is stored as `1234567`, the `Quantity` `(1234567, u)`
as `1234570`. -/
theorem unpack_bare_zero_counterexample :
    unpack (.num 0) ≠ unpack (.qty 0) ∧
    unpack (.num 1234567) ≠ unpack (.qty 1234567) := by
  constructor
  · simp [unpack, round6g]
  · have hlog : Nat.log 10 1234567 = 6 :=
      Nat.log_eq_of_pow_le_of_lt_pow (by norm_num) (by norm_num)
    have hde : decExp 1234567 = 6 := by
      norm_num [decExp, hlog]
    have hr : roundHalfEven (1234567 / 10 : ℚ) = 123457 := by
      have hf : ⌊(1234567 / 10 : ℚ)⌋ = 123456 :=
        Int.floor_eq_iff.mpr (by norm_num)
      norm_num [roundHalfEven, hf]
    have h6 : round6g 1234567 = 1234570 := by
      have hsc : pow10 (decExp 1234567 - 5) = 10 := by
        norm_num [hde, pow10]
      rw [round6g, if_neg (by norm_num), hsc]
      norm_num [hr]
    simp only [unpack, h6]
    norm_num

/-- C5 (amended): a bare non-zero number x and the `Quantity` carrying x
in the field's canonical base unit unpack to the same stored value
exactly when x is a fixed point of the 6-significant-digit rounding that
`Quantity.__call__` applies (`round6g x = x`, i.e. x needs at most six
significant decimal digits); a bare `0` is stored as `None` (the
parameter-absent marker), not as the value `0`, and a value needing more
than six significant digits is stored rounded when supplied as a
`Quantity` but exact when supplied bare. -/
theorem unpack_num_eq_qty_of_six_digits (x : ℚ) (hx : x ≠ 0)
    (h6 : round6g x = x) : unpack (.num x) = unpack (.qty x) := by
  simp [unpack, hx, h6]

/-- C5 witness: the bare number 3 unpacks like the Quantity 3 (3 is a
fixed point of the 6-significant-digit rounding). -/
theorem unpack_num_eq_qty_witness : unpack (.num 3) = unpack (.qty 3) :=
  unpack_num_eq_qty_of_six_digits 3 (by norm_num) (by
    have hlog : Nat.log 10 3 = 0 :=
      Nat.log_eq_of_pow_le_of_lt_pow (by norm_num) (by norm_num)
    have hde : decExp 3 = 0 := by
      norm_num [decExp, hlog]
    have hr : roundHalfEven (300000 : ℚ) = 300000 := by
      have hf : ⌊(300000 : ℚ)⌋ = 300000 := Int.floor_eq_iff.mpr (by norm_num)
      norm_num [roundHalfEven, hf]
    have hsc : pow10 (decExp 3 - 5) = 1 / 100000 := by
      norm_num [hde, pow10]
    rw [round6g, if_neg (by norm_num), hsc]
    norm_num [hr])

/-- C6: in the spec's concrete scenario (`T_i_d = 20`, `T_e_d = -10`,
`h_r = 2.5`; exterior element `A = 10`, `U = 1`, `dU_tb = 0.1`,
`f_U = 1`, `f1` not supplied) the temperature-adjustment factor is
`f_T = 1`, the element's heat-transfer coefficient is `H = 11 W/K`, and
the space's transmission loss is `Q_trm = 330 W`. -/
theorem concrete_exterior_scenario :
    calc_temp_adjust_factor ctxC1 none ctxC1.T_e_d = .ok 1 ∧
    mkExterior ctxC1 10 1 (1/10) 1 none = .ok ⟨10, 11⟩ ∧
    hsC6.Q_trm = 330 := by
  refine ⟨?_, ?_, ?_⟩ <;>
    norm_num [mkExterior, calc_temp_adjust_factor, T_sm, ctxC1, hsC6, extC6,
      okD, HeatedSpace.Q_trm, HeatedSpace.HT_ie, HeatedSpace.HT_ia,
      HeatedSpace.HT_iaBE, HeatedSpace.HT_iae, HeatedSpace.HT_ig, Except.map]

/-- C7: project load fails with `FileNotFound` exactly when the filename
suffix is not the recognized `.hlc` extension; with the recognized
extension it fails with `InvalidProjectFile` exactly when the
deserialized root is not a `Building`, and otherwise returns the
deserialized `Building`. -/
theorem load_classification (suffix : String) (root : RootObj) :
    (load suffix root = .error .fileNotFound ↔ suffix ≠ ".hlc") ∧
    (suffix = ".hlc" →
      ((load suffix root = .error .invalidProjectFile ↔ root = .other) ∧
        ∀ b, root = .building b → load suffix root = .ok b)) := by
  cases root <;> by_cases h : suffix = ".hlc" <;>
    simp [load, h]

/-- C7 witness: loading a `.hlc` file whose root is the building `bC1`. -/
theorem load_classification_witness :
    load ".hlc" (.building bC1) = .ok bC1 :=
  ((load_classification ".hlc" (.building bC1)).2 rfl).2 bC1 rfl

/-- C8: at every level of the hierarchy (heated space, building entity,
building) the displayed total satisfies
`Q_load = Q_trm + Q_ven + Q_hu - Q_gain` exactly, for every state of the
object tree. -/
theorem Q_load_decomposition (rpow : ℚ → ℚ → ℚ) (vz : VentilationZone)
    (hs : HeatedSpace) (be : BuildingEntity) (b : Building) :
    hs.Q_load rpow vz = hs.Q_trm + hs.Q_ven rpow vz + hs.Q_hu - hs.Q_gain ∧
    be.Q_load rpow = be.Q_trm + be.Q_ven rpow + be.Q_hu - be.Q_gain ∧
    b.Q_load rpow = b.Q_trm + b.Q_ven rpow + b.Q_hu - b.Q_gain :=
  ⟨rfl, rfl, rfl⟩

/-- Length of the rows generated for one zone block. -/
theorem vz_rows_length (rpow : ℚ → ℚ → ℚ) (zones : List VentilationZone) :
    ((zones.map (fun vz => create_vz_row rpow vz ::
      vz.heated_spaces.map (create_hs_row rpow vz))).flatten).length =
      zones.length +
        ((zones.map VentilationZone.heated_spaces).flatten).length := by
  induction zones with
  | nil => simp
  | cons z t ih =>
    simp only [List.map_cons, List.flatten_cons, List.length_append,
      List.length_cons, List.length_map, ih]
    omega

/-- Length of the rows generated for one building-entity block. -/
theorem be_rows_length (rpow : ℚ → ℚ → ℚ) (ents : List BuildingEntity) :
    ((ents.map (fun be => create_be_row rpow be ::
      (be.ventilation_zones.map (fun vz => create_vz_row rpow vz ::
        vz.heated_spaces.map (create_hs_row rpow vz))).flatten)).flatten).length
      = ents.length + (ents.map (fun be => be.ventilation_zones.length)).sum +
        ((ents.map BuildingEntity.heated_spaces).flatten).length := by
  induction ents with
  | nil => simp
  | cons e t ih =>
    simp only [List.map_cons, List.flatten_cons, List.length_append,
      List.length_cons, List.sum_cons, ih]
    rw [vz_rows_length]
    simp only [BuildingEntity.heated_spaces]
    omega

/-- C9: the CSV export writes, below the header, exactly
`1 (building) + number of entities + number of zones + number of spaces`
rows of entity data, and every ventilation-zone row populates only the
name and ventilation-loss cells, the other three being empty. -/
theorem csv_export_rows (rpow : ℚ → ℚ → ℚ) (b : Building) :
    ((create_rows rpow b).drop 1).length = 1 + b.numBE + b.numVZ + b.numHS ∧
    ∀ vz : VentilationZone,
      create_vz_row rpow vz =
        [.str vz.name, .str "", .num (vz.Q_ven rpow), .str "", .str ""] := by
  constructor
  · show (create_bu_row rpow b ::
      (b.building_entities.map (fun be => create_be_row rpow be ::
        (be.ventilation_zones.map (fun vz => create_vz_row rpow vz ::
          vz.heated_spaces.map (create_hs_row rpow vz))).flatten)).flatten).length
      = 1 + b.numBE + b.numVZ + b.numHS
    simp only [List.length_cons]
    rw [be_rows_length]
    simp only [Building.numBE, Building.numVZ, Building.numHS,
      Building.descendant_spaces]
    omega
  · intro vz
    rfl

/-- Looking up a key right after a dict write finds the written value. -/
theorem lookupName_dictSet (nm : String) (v : ℕ) (l : List (String × ℕ)) :
    lookupName nm (dictSet nm v l) = some v := by
  induction l with
  | nil => simp [dictSet, lookupName]
  | cons p t ih =>
    obtain ⟨k, w⟩ := p
    by_cases h : k = nm
    · simp [dictSet, lookupName, h]
    · simp [dictSet, lookupName, h, ih]

/-- C2: when a ventilation zone named `nm` (heap address `zOld`, data
`zd`) already exists in its building entity's collection, the factory
`create` installs a fresh `VentilationZone` instance (new heap address
`s.next ≠ zOld`) under the same name, and the new instance's
`heated_spaces` mapping is exactly the one the old zone had before the
call (same names, same space objects). -/
theorem vz_factory_replace_preserves_children
    (s : Store) (beId : ℕ) (nm : String) (ps : VZParams) (beData : BEData)
    (zOld : ℕ) (zd : VZData)
    (h1 : s.entities beId = some beData)
    (h2 : lookupName nm beData.ventilation_zones = some zOld)
    (h3 : s.zones zOld = some zd)
    (h4 : zOld < s.next) :
    (createVZ s beId nm ps).zones s.next =
      some ⟨nm, ps, zd.heated_spaces, beId⟩ ∧
    (∃ bd', (createVZ s beId nm ps).entities beId = some bd' ∧
      lookupName nm bd'.ventilation_zones = some s.next) ∧
    s.next ≠ zOld := by
  refine ⟨?_,
    ⟨⟨beData.name, dictSet nm s.next beData.ventilation_zones⟩, ?_, ?_⟩,
    by omega⟩
  · simp [createVZ, h1, h2, h3, setZone, setEntity, Option.elim, Option.bind]
  · simp [createVZ, h1, h2, h3, setZone, setEntity, Option.elim, Option.bind]
  · exact lookupName_dictSet nm s.next beData.ventilation_zones

/-- C2 witness: replacing zone "Z" of the concrete store `sW` with the
new parameters `psW2` keeps its two-entry `heated_spaces` mapping. -/
theorem vz_factory_replace_preserves_children_witness :
    (createVZ sW 0 "Z" psW2).zones sW.next =
      some ⟨"Z", psW2, zdW.heated_spaces, 0⟩ ∧
    (∃ bd', (createVZ sW 0 "Z" psW2).entities 0 = some bd' ∧
      lookupName "Z" bd'.ventilation_zones = some sW.next) ∧
    sW.next ≠ 1 :=
  vz_factory_replace_preserves_children sW 0 "Z" psW2 ⟨"E0", [("Z", 1)]⟩ 1 zdW
    rfl rfl rfl (by decide)

/-- createVZ never touches the heated-space heap. -/
theorem spaces_createVZ (s : Store) (beId : ℕ) (nm : String) (ps : VZParams) :
    (createVZ s beId nm ps).spaces = s.spaces := by
  cases h : s.entities beId <;>
    simp [createVZ, h, setZone, setEntity, Option.elim]

/-- createVZ only writes the zone heap at the fresh address. -/
theorem zones_createVZ_ne (s : Store) (beId : ℕ) (nm : String) (ps : VZParams)
    (j : ℕ) (hj : j ≠ s.next) :
    (createVZ s beId nm ps).zones j = s.zones j := by
  cases h : s.entities beId <;>
    simp [createVZ, h, setZone, setEntity, Option.elim, hj]

/-- createBE never touches the zone heap. -/
theorem zones_createBE (s : Store) (nm : String) :
    (createBE s nm).zones = s.zones := rfl

/-- createBE only writes the entity heap at the fresh address. -/
theorem entities_createBE_ne (s : Store) (nm : String) (j : ℕ)
    (hj : j ≠ s.next) : (createBE s nm).entities j = s.entities j := by
  simp [createBE, setEntity, hj]

/-- C10: after a replace-style `create` of a ventilation zone (or of a
building entity), every migrated child keeps its back-reference
unchanged: the heated space at `sid` still stores `ventilation_zone =
zOld`, which is not the fresh instance `s.next`, the old zone object is
still in the heap with its old parameters, and the space's zone-derived
quantity `V_leak_ATD` — resolved through the back-reference — is exactly
what it was before the call, i.e. still computed from the old instance's
parameters; symmetrically, after `createBE` every zone keeps
`building_entity = beOld ≠ s.next` with the old entity object intact. -/
theorem replace_leaves_child_backrefs_on_old_instance
    (rpow : ℚ → ℚ → ℚ) (s : Store) (beId : ℕ) (nm : String) (ps : VZParams)
    (beData : BEData) (zOld : ℕ) (zd : VZData) (k : String) (sid : ℕ)
    (hd : HSData) (nmB : String) (beOld : ℕ) (bd : BEData) (kB : String)
    (vzId : ℕ) (vzd : VZData)
    (_h1 : s.entities beId = some beData)
    (_h2 : lookupName nm beData.ventilation_zones = some zOld)
    (h3 : s.zones zOld = some zd)
    (h4 : zOld < s.next)
    (_h5 : (k, sid) ∈ zd.heated_spaces)
    (h6 : s.spaces sid = some hd)
    (h7 : hd.vzRef = zOld)
    (_hB1 : lookupName nmB s.building_entities = some beOld)
    (hB2 : s.entities beOld = some bd)
    (_hB3 : (kB, vzId) ∈ bd.ventilation_zones)
    (hB4 : s.zones vzId = some vzd)
    (hB5 : vzd.beRef = beOld)
    (hB6 : beOld < s.next) :
    (createVZ s beId nm ps).spaces sid = some hd ∧
    hd.vzRef = zOld ∧ zOld ≠ s.next ∧
    (createVZ s beId nm ps).zones zOld = some zd ∧
    V_leak_ATD_heap rpow (createVZ s beId nm ps) sid =
      V_leak_ATD_heap rpow s sid ∧
    (createBE s nmB).zones vzId = some vzd ∧
    vzd.beRef = beOld ∧ beOld ≠ s.next ∧
    (createBE s nmB).entities beOld = some bd := by
  have hsp := spaces_createVZ s beId nm ps
  have hzOld : (createVZ s beId nm ps).zones zOld = s.zones zOld :=
    zones_createVZ_ne s beId nm ps zOld (by omega)
  have hzv : zoneView (createVZ s beId nm ps) zd = zoneView s zd := by
    unfold zoneView
    rw [hsp]
  refine ⟨?_, h7, by omega, ?_, ?_, ?_, hB5, by omega, ?_⟩
  · rw [hsp]; exact h6
  · rw [hzOld]; exact h3
  · unfold V_leak_ATD_heap
    rw [hsp, h6]
    simp only [Option.some_bind]
    rw [h7, hzOld, h3]
    simp [hzv]
  · rw [zones_createBE]; exact hB4
  · rw [entities_createBE_ne s nmB beOld (by omega)]; exact hB2

/-- C10 witness: the concrete store `sW` after replacing zone "Z" and
entity "E3". -/
theorem replace_leaves_child_backrefs_witness :
    (createVZ sW 0 "Z" psW2).spaces 2 = some ⟨1, hsC1⟩ ∧
    (⟨1, hsC1⟩ : HSData).vzRef = 1 ∧ (1 : ℕ) ≠ sW.next ∧
    (createVZ sW 0 "Z" psW2).zones 1 = some zdW ∧
    V_leak_ATD_heap rpow0 (createVZ sW 0 "Z" psW2) 2 =
      V_leak_ATD_heap rpow0 sW 2 ∧
    (createBE sW "E3").zones 4 = some vzdW ∧
    vzdW.beRef = 3 ∧ (3 : ℕ) ≠ sW.next ∧
    (createBE sW "E3").entities 3 = some ⟨"E3", [("W", 4)]⟩ :=
  replace_leaves_child_backrefs_on_old_instance rpow0 sW 0 "Z" psW2
    ⟨"E0", [("Z", 1)]⟩ 1 zdW "office" 2 ⟨1, hsC1⟩ "E3" 3 ⟨"E3", [("W", 4)]⟩
    "W" 4 vzdW rfl rfl rfl (by decide) (by simp [zdW]) rfl rfl rfl rfl
    (by simp) rfl rfl (by decide)

end Heaty
